import Mathlib

/-!
Verification development for the particle-planet visualization
(src/script.js and the variant src/unnamed/part_000).

The gesture-interpretation and smoothing pipeline works on JavaScript
numbers; all of its arithmetic on the values the claims are about is
field arithmetic (+, -, *, /, min, max, comparisons), which we embed
exactly over `ℚ`.  The two hand distances consumed by the zoom logic
are outputs of `Math.hypot`, hence arbitrary nonnegative numbers; we
model them as nonnegative rationals fed into the interpreter.  The
particle-layout geometry (acos/cos/sin/sqrt) is embedded over `ℝ`.
-/

namespace ParticlePlanet

/-- CONFIG.particleCountSphere (desktop value, src/script.js line 7). -/
def particleCountSphere : ℕ := 20000

/-- CONFIG.particleCountRing (desktop value, src/script.js line 8). -/
def particleCountRing : ℕ := 15000

/-- CONFIG.planetRadius (src/script.js line 9). -/
def planetRadius : ℚ := 5

/-- CONFIG.ringInnerRadius (src/script.js line 10). -/
def ringInnerRadius : ℚ := 7

/-- CONFIG.ringOuterRadius (src/script.js line 11). -/
def ringOuterRadius : ℚ := 12

/-- CONFIG.mouseRepulsionRadius (src/script.js line 13); also the literal
`radius = 4.0` inside the vertex shader. -/
def mouseRepulsionRadius : ℚ := 4

/-- CONFIG.mouseRepulsionStrength (src/script.js line 14); also the literal
`force = 3.0` inside the vertex shader. -/
def mouseRepulsionStrength : ℚ := 3

/-! ## Landmark-to-gesture interpreter (onResults, src/script.js 240-297) -/

/-- `zoom = Math.max(0.0, Math.min(1.0, zoom))` (src/script.js line 277). -/
def clampZoom (z : ℚ) : ℚ := max 0 (min 1 z)

/-- `const ratio = refScale > 0 ? currentDist / refScale : 0`
(src/script.js line 275).  `currentDist` is the hypot distance
wrist(0) to middleTip(12); `refScale` is the hypot distance
wrist(0) to indexMcp(5). -/
def ratioOf (currentDist refScale : ℚ) : ℚ :=
  if refScale > 0 then currentDist / refScale else 0

/-- `let zoom = (ratio - 0.8) / (1.8 - 0.8)` followed by the clamp
(src/script.js lines 276-277). -/
def zoomOfRatio (ratio : ℚ) : ℚ := clampZoom ((ratio - 0.8) / (1.8 - 0.8))

/-- The full zoom signal written to `window.targetZoom` as a function of the
two hand distances (src/script.js lines 270-278). -/
def targetZoomOf (currentDist refScale : ℚ) : ℚ :=
  zoomOfRatio (ratioOf currentDist refScale)

/-- The formula of the specification, stated in its own words: the ratio is
`dist(w,m)/dist(w,c)`, taken as `0` when `dist(w,c) = 0`, then normalized by
`clamp((ratio - 0.8) / (1.8 - 0.8), 0, 1)`.  Kept separate from
`targetZoomOf` (which follows the source) so the two can be compared. -/
def specZoomOfDists (d1 d2 : ℚ) : ℚ :=
  clampZoom (((if d2 = 0 then 0 else d1 / d2) - 0.8) / (1.8 - 0.8))

/-- Rotation zoning on the index-fingertip x coordinate
(src/script.js lines 281-287). -/
def targetRotationSpeedOf (indexTipX : ℚ) : ℚ :=
  if indexTipX < 0.2 then -0.05
  else if indexTipX > 0.8 then 0.05
  else 0.002

/-! ## Temporal smoothing (animate, src/script.js 406-434) -/

/-- One render-tick smoothing update
`current += (target - current) * alpha`
(src/script.js lines 419 and 426; `alpha = 0.05` for rotation speed,
`alpha = 0.1` for zoom). -/
def smoothStep (alpha target current : ℚ) : ℚ :=
  current + (target - current) * alpha

/-- `n` render ticks of `smoothStep` with the target held constant. -/
def smoothIter (alpha target : ℚ) : ℕ → ℚ → ℚ
  | 0, c => c
  | n + 1, c => smoothIter alpha target n (smoothStep alpha target c)

/-- Camera distance derived from the smoothed zoom:
`newZ = maxZ - currentZoom * (maxZ - minZ)` with `minZ = 8`, `maxZ = 25`
(src/script.js lines 427-429). -/
def cameraZ (currentZoom : ℚ) : ℚ := 25 - currentZoom * (25 - 8)

/-! ## Vertex-shader repulsion (src/script.js lines 58-70)

The shader adds `dir * influence * force * uHover` to the position when
`dist < radius`, where `dir` is the unit vector from `uMouse` toward the
particle, `influence = 1.0 - dist / radius`, `radius = 4.0`, `force = 3.0`.
Since `dir` is a unit vector, the magnitude of the added displacement is the
scalar below (for nonnegative `uHover`); outside the radius nothing is
added, i.e. the displacement is `0`. -/

/-- Magnitude of the shader's repulsion displacement as a function of the
distance `d` from the (jittered) position to `uMouse` and of `uHover`. -/
def repulsionDisplacement (d uHover : ℚ) : ℚ :=
  if d < 4 then (1 - d / 4) * 3 * uHover else 0

/-! ## End-to-end closing-hand simulation (spec section 8, last bullet)

The hand closes linearly from ratio `1.8` to ratio `0.8` over 50 render
ticks: tick `k+1` recomputes `targetZoom` from ratio `1.8 - k/49`
(`k = 0` gives `1.8`, `k = 49` gives `0.8`) and then performs the zoom
smoothing update of the animate loop with `alpha = 0.1`.  `currentZoom`
starts at `0`, the initial value set by the animate loop
(src/script.js line 423). -/

/-- Ratio of the closing hand at tick index `k` of the 50-tick ramp. -/
def c5Ratio (k : ℕ) : ℚ := 1.8 - (k : ℚ) / 49

/-- `currentZoom` after `n` ticks of the closing-hand simulation. -/
def c5Sim : ℕ → ℚ
  | 0 => 0
  | k + 1 => smoothStep 0.1 (zoomOfRatio (c5Ratio k)) (c5Sim k)

/-! ## Gesture state and the onResults frame handler -/

/-- A three.js `Vector3` restricted to the exact (rational) values the
claims manipulate. -/
structure JSVec3 where
  x : ℚ
  y : ℚ
  z : ℚ

/-- The mutable state touched by the gesture pipeline: the two shader
uniforms `uMouse` and `uHover`, plus `window.targetZoom` and
`window.targetRotationSpeed`. -/
structure GestureState where
  uMouse : JSVec3
  uHover : ℚ
  targetZoom : ℚ
  targetRotationSpeed : ℚ

/-- The landmark data of one detected hand that `onResults` actually reads:
the index-fingertip x coordinate (landmark 8) and the two `Math.hypot`
distances wrist(0)-middleTip(12) and wrist(0)-indexMcp(5).  The distances
are hypot outputs, hence arbitrary nonnegative numbers, modelled as
rationals. -/
structure Hand where
  indexTipX : ℚ
  wristToMiddleTip : ℚ
  wristToIndexMcp : ℚ

/-- JavaScript truthiness of the `target` vector tested by
`updateInteraction` (src/script.js line 200).  `target` is the object
created by `new THREE.Vector3()` on line 195; an object is truthy in
JavaScript no matter what components it holds, so this is constantly
`true`. -/
def vecTruthy (_v : JSVec3) : Bool :=
  true

/-- `updateInteraction(x, y)` (src/script.js lines 190-206).  The raycast
against the z = 0 plane is abstracted as `planeHit : Option JSVec3`:
`some p` when `ray.intersectPlane` finds an intersection point `p` (which
it writes into `target`), `none` when the ray misses the plane (in which
case `intersectPlane` returns null and leaves the freshly constructed
`target` at its initial `(0, 0, 0)`).  The source then tests the object
`target` itself, not the return value of `intersectPlane`. -/
def updateInteraction (planeHit : Option JSVec3) (s : GestureState) : GestureState :=
  let target : JSVec3 :=
    match planeHit with
    | some p => p
    | none => ⟨0, 0, 0⟩
  if vecTruthy target then
    { s with uMouse := target, uHover := 1 }
  else
    { s with uHover := 0 }

/-- `onResults(results)` (src/script.js lines 240-297), restricted to the
gesture state it mutates.  `frame` is the zero-or-one detected hand of the
landmark result (the landmarker is configured with `numHands: 1`);
`planeHit` is the plane-raycast outcome consumed by `updateInteraction`.
With a hand: update the repulsion target from the index fingertip, write
the clamped zoom to `targetZoom`, and apply the three-zone rotation
policy.  With no hand: `uHover` drops to `0` and `targetRotationSpeed`
returns to the idle drift `0.002`; nothing else is touched. -/
def onResults (frame : Option Hand) (planeHit : Option JSVec3) (s : GestureState) : GestureState :=
  match frame with
  | some hand =>
      let s1 := updateInteraction planeHit s
      let s2 := { s1 with
        targetZoom := targetZoomOf hand.wristToMiddleTip hand.wristToIndexMcp }
      { s2 with targetRotationSpeed := targetRotationSpeedOf hand.indexTipX }
  | none =>
      { s with uHover := 0, targetRotationSpeed := 0.002 }

/-! ## The two frame loops feeding detection -/

/-- State of the prediction loop: the `lastVideoTime` module variable, the
gesture state, and a counter of how many times the landmark detection
operation has been invoked. -/
structure TrackerState where
  lastVideoTime : ℚ
  gesture : GestureState
  detectCalls : ℕ

/-- One iteration of `predictWebcam` (src/script.js lines 364-382):
if `videoElement.currentTime !== lastVideoTime`, record the new timestamp,
invoke `detectForVideo` (counted in `detectCalls`) and run `onResults` on
its result; otherwise do nothing. -/
def predictWebcamTick (currentTime : ℚ) (frame : Option Hand)
    (planeHit : Option JSVec3) (s : TrackerState) : TrackerState :=
  if currentTime ≠ s.lastVideoTime then
    { lastVideoTime := currentTime
      gesture := onResults frame planeHit s.gesture
      detectCalls := s.detectCalls + 1 }
  else
    s

/-- One iteration of `sendFrame` (src/unnamed/part_000 lines 352-357):
whenever `videoElement.readyState >= 2`, invoke detection (`hands.send`)
and, through its callback, `onResults`.  The video timestamp is never
consulted — `currentTime` is a parameter only so that iterations on a
duplicated frame can be expressed. -/
def sendFrameTick (_currentTime : ℚ) (readyState : ℕ) (frame : Option Hand)
    (planeHit : Option JSVec3) (s : TrackerState) : TrackerState :=
  if 2 ≤ readyState then
    { s with
      gesture := onResults frame planeHit s.gesture
      detectCalls := s.detectCalls + 1 }
  else
    s

/-- A concrete tracker state for evaluating the frame loops: last processed
timestamp `1`, the startup gesture state (uMouse off-screen at 9999,
uHover 0, zoom 0, idle rotation), no detection calls yet. -/
def c9InitialState : TrackerState :=
  { lastVideoTime := 1
    gesture :=
      { uMouse := ⟨9999, 9999, 9999⟩
        uHover := 0
        targetZoom := 0
        targetRotationSpeed := 0.002 }
    detectCalls := 0 }

/-! ## Particle field generator (createParticles, src/script.js 106-161) -/

/-- `phi = Math.acos(-1 + (2 * i) / particleCountSphere)`
(src/script.js line 113). -/
noncomputable def spherePhi (ns i : ℕ) : ℝ :=
  Real.arccos (-1 + (2 * i : ℝ) / ns)

/-- `theta = Math.sqrt(particleCountSphere * Math.PI) * phi`
(src/script.js line 114). -/
noncomputable def sphereTheta (ns i : ℕ) : ℝ :=
  Real.sqrt (ns * Real.pi) * spherePhi ns i

/-- The sphere-population position of index `i` (src/script.js lines
116-120): `x = r cos(theta) sin(phi)`, `y = r sin(theta) sin(phi)`,
`z = r cos(phi)`.  A pure function of `i` — the sphere layout draws no
random numbers for its position (`Math.random()` feeds only the `aRandom`
seed attribute). -/
noncomputable def spherePosition (ns i : ℕ) (r : ℝ) : ℝ × ℝ × ℝ :=
  (r * Real.cos (sphereTheta ns i) * Real.sin (spherePhi ns i),
   r * Real.sin (sphereTheta ns i) * Real.sin (spherePhi ns i),
   r * Real.cos (spherePhi ns i))

/-- `innerR2 = ringInnerRadius * ringInnerRadius` (src/script.js line 138). -/
def ringInnerR2 : ℚ := ringInnerRadius * ringInnerRadius

/-- `outerR2 = ringOuterRadius * ringOuterRadius` (src/script.js line 139). -/
def ringOuterR2 : ℚ := ringOuterRadius * ringOuterRadius

/-- The radicand of the ring-radius draw, as a function of the uniform
draw `u = Math.random() ∈ [0,1)`:
`Math.random() * (outerR2 - innerR2) + innerR2` (src/script.js line 140).
This is the square of the planar radius, affine in `u`. -/
def ringRadiusSq (u : ℚ) : ℚ := u * (ringOuterR2 - ringInnerR2) + ringInnerR2

/-- `r = Math.sqrt(Math.random() * (outerR2 - innerR2) + innerR2)`
(src/script.js line 140). -/
noncomputable def ringRadius (u : ℚ) : ℝ := Real.sqrt (ringRadiusSq u)

/-- `angle = Math.random() * Math.PI * 2` (src/script.js line 136), as a
function of the uniform draw `u ∈ [0,1)`. -/
noncomputable def ringAngle (u : ℚ) : ℝ := (u : ℝ) * Real.pi * 2

/-- `y = (Math.random() - 0.5) * 0.2` (src/script.js line 143), as a
function of the uniform draw `u ∈ [0,1)`. -/
def ringVertical (u : ℚ) : ℚ := (u - 0.5) * 0.2

/-! ## Theorems -/

/-- The clamp always lands in `[0, 1]`. -/
lemma clampZoom_mem (z : ℚ) : 0 ≤ clampZoom z ∧ clampZoom z ≤ 1 := by
  unfold clampZoom
  exact ⟨le_max_left _ _, max_le (by norm_num) (min_le_left _ _)⟩

/-- Claim C1: for every landmark frame, the zoom signal written to
`targetZoom` equals `clamp(((d1 / d2) - 0.8) / (1.8 - 0.8), 0, 1)` where
`d1 = dist(wrist, middleTip)` and `d2 = dist(wrist, indexMcp)` are the
hypot distances (arbitrary nonnegative values), with the ratio taken as
`0` when `d2 = 0`; ratio `0.8` gives zoom `0`, ratio `1.8` gives `1`,
ratio `1.3` gives `0.5`, every ratio clamps into `[0, 1]`, and `d2 = 0`
forces zoom `0`. -/
theorem targetZoom_matches_spec_clamp (d1 d2 : ℚ) (hd2 : 0 ≤ d2) :
    targetZoomOf d1 d2 = specZoomOfDists d1 d2 ∧
    zoomOfRatio 0.8 = 0 ∧ zoomOfRatio 1.8 = 1 ∧ zoomOfRatio 1.3 = 0.5 ∧
    (∀ ratio : ℚ, 0 ≤ zoomOfRatio ratio ∧ zoomOfRatio ratio ≤ 1) ∧
    targetZoomOf d1 0 = 0 := by
  refine ⟨?_, by norm_num [zoomOfRatio, clampZoom],
    by norm_num [zoomOfRatio, clampZoom], by norm_num [zoomOfRatio, clampZoom],
    fun ratio => clampZoom_mem _, ?_⟩
  · have key : ratioOf d1 d2 = if d2 = 0 then 0 else d1 / d2 := by
      unfold ratioOf
      rcases eq_or_lt_of_le hd2 with h | h
      · rw [if_neg (by rw [← h]; exact lt_irrefl 0), if_pos h.symm]
      · rw [if_pos h, if_neg (ne_of_gt h)]
    rw [targetZoomOf, key, specZoomOfDists, zoomOfRatio]
  · norm_num [targetZoomOf, ratioOf, zoomOfRatio, clampZoom]

/-- Witness for C1 at the concrete distances `d1 = 1`, `d2 = 2`. -/
theorem targetZoom_matches_spec_clamp_witness :
    targetZoomOf 1 2 = specZoomOfDists 1 2 :=
  (targetZoom_matches_spec_clamp 1 2 (by norm_num)).1

/-- Claim C2: the rotation target is the pure three-zone function of the
index-fingertip x coordinate: `x < 0.2` gives `-0.05`, `x > 0.8` gives
`0.05`, every other `x` — the boundaries `0.2` and `0.8` included — gives
the idle drift `0.002`; in particular `x = 0.1, 0.5, 0.9` give
`-0.05, 0.002, 0.05`. -/
theorem rotation_three_zone_policy (x : ℚ) :
    (x < 0.2 → targetRotationSpeedOf x = -0.05) ∧
    (x > 0.8 → targetRotationSpeedOf x = 0.05) ∧
    (0.2 ≤ x → x ≤ 0.8 → targetRotationSpeedOf x = 0.002) ∧
    targetRotationSpeedOf 0.2 = 0.002 ∧
    targetRotationSpeedOf 0.8 = 0.002 ∧
    targetRotationSpeedOf 0.1 = -0.05 ∧
    targetRotationSpeedOf 0.5 = 0.002 ∧
    targetRotationSpeedOf 0.9 = 0.05 := by
  refine ⟨fun h => by rw [targetRotationSpeedOf, if_pos h],
    fun h => by rw [targetRotationSpeedOf, if_neg (by linarith), if_pos h],
    fun h1 h2 => by
      rw [targetRotationSpeedOf, if_neg (not_lt.mpr h1), if_neg (not_lt.mpr h2)],
    ?_, ?_, ?_, ?_, ?_⟩ <;> norm_num [targetRotationSpeedOf]

/-- Witness for C2 at the concrete fingertip coordinate `x = 0.1`. -/
theorem rotation_three_zone_policy_witness :
    targetRotationSpeedOf 0.1 = -0.05 :=
  (rotation_three_zone_policy 0.1).1 (by norm_num)

/-- Closed form of the iterated smoothing update with constant target. -/
lemma smoothIter_closed_form (alpha target : ℚ) (n : ℕ) :
    ∀ c : ℚ, smoothIter alpha target n c = target - (1 - alpha) ^ n * (target - c) := by
  induction n with
  | zero => intro c; simp [smoothIter]
  | succ n ih =>
    intro c
    show smoothIter alpha target n (smoothStep alpha target c) = _
    rw [ih]
    simp only [smoothStep]
    ring

/-- Claim C3: the per-tick update `current += (target - current) * alpha`
with constant target converges monotonically and never overshoots: from
`current = 0`, `target = 1`, `alpha = 0.1`, after `n` ticks the value is
`1 - 0.9 ^ n`, strictly increasing in `n` and strictly below `1`; and for
both channels (`alpha = 0.1` zoom, `alpha = 0.05` rotation speed) a tick
keeps `current` inside any interval containing both `current` and
`target`. -/
theorem smoothing_monotone_no_overshoot :
    (∀ n : ℕ, smoothIter 0.1 1 n 0 = 1 - (0.9 : ℚ) ^ n) ∧
    (∀ n : ℕ, smoothIter 0.1 1 n 0 < smoothIter 0.1 1 (n + 1) 0) ∧
    (∀ n : ℕ, smoothIter 0.1 1 n 0 < 1) ∧
    (∀ a b target c : ℚ, a ≤ target → target ≤ b → a ≤ c → c ≤ b →
      (a ≤ smoothStep 0.1 target c ∧ smoothStep 0.1 target c ≤ b) ∧
      (a ≤ smoothStep 0.05 target c ∧ smoothStep 0.05 target c ≤ b)) := by
  have hcf : ∀ n : ℕ, smoothIter 0.1 1 n 0 = 1 - (0.9 : ℚ) ^ n := by
    intro n
    rw [smoothIter_closed_form]
    norm_num
  have hpos : ∀ n : ℕ, (0 : ℚ) < 0.9 ^ n := fun n => pow_pos (by norm_num) n
  refine ⟨hcf, ?_, ?_, ?_⟩
  · intro n
    rw [hcf, hcf]
    have h : (0.9 : ℚ) ^ (n + 1) < 0.9 ^ n := by
      have := hpos n
      calc (0.9 : ℚ) ^ (n + 1) = 0.9 * 0.9 ^ n := by ring
        _ < 1 * 0.9 ^ n := by nlinarith
        _ = 0.9 ^ n := one_mul _
    linarith
  · intro n
    rw [hcf]
    have := hpos n
    linarith
  · intro a b target c h1 h2 h3 h4
    unfold smoothStep
    refine ⟨⟨by nlinarith, by nlinarith⟩, ⟨by nlinarith, by nlinarith⟩⟩

/-- Witness for C3: a zoom-channel tick from `current = 0` toward
`target = 1` stays inside `[0, 1]`. -/
theorem smoothing_monotone_no_overshoot_witness :
    0 ≤ smoothStep 0.1 1 0 ∧ smoothStep 0.1 1 0 ≤ 1 :=
  (smoothing_monotone_no_overshoot.2.2.2 0 1 1 0 (by norm_num) (by norm_num)
    (by norm_num) (by norm_num)).1

/-- Claim C4: the shader applies a repulsion displacement only for
distances strictly below the influence radius `4.0`; there its magnitude
is `(1 - d / 4) * 3 * uHover`, which is `3 * uHover` at `d = 0`, `0` at
`d = 4`, monotonically decreasing on `[0, 4]`, and exactly `0` for all
`d ≥ 4`. -/
theorem repulsion_falloff_profile (u : ℚ) (hu : 0 ≤ u) :
    repulsionDisplacement 0 u = 3 * u ∧
    repulsionDisplacement 4 u = 0 ∧
    (∀ d : ℚ, 4 ≤ d → repulsionDisplacement d u = 0) ∧
    (∀ d : ℚ, d < 4 → repulsionDisplacement d u = (1 - d / 4) * 3 * u) ∧
    (∀ d1 d2 : ℚ, 0 ≤ d1 → d1 ≤ d2 → d2 ≤ 4 →
      repulsionDisplacement d2 u ≤ repulsionDisplacement d1 u) := by
  refine ⟨by norm_num [repulsionDisplacement], by norm_num [repulsionDisplacement],
    fun d hd => by rw [repulsionDisplacement, if_neg (not_lt.mpr hd)],
    fun d hd => by rw [repulsionDisplacement, if_pos hd], ?_⟩
  intro d1 d2 h0 h12 h24
  unfold repulsionDisplacement
  rcases lt_or_le d2 4 with h | h
  · rw [if_pos h, if_pos (lt_of_le_of_lt h12 h)]
    nlinarith
  · rw [if_neg (not_lt.mpr h)]
    rcases lt_or_le d1 4 with h1 | h1
    · rw [if_pos h1]
      nlinarith
    · rw [if_neg (not_lt.mpr h1)]

/-- Witness for C4 at `uHover = 1`: full strength `3` at distance `0`. -/
theorem repulsion_falloff_profile_witness :
    repulsionDisplacement 0 1 = 3 * 1 :=
  (repulsion_falloff_profile 1 (by norm_num)).1

set_option maxRecDepth 4000 in
/-- Exact bounds on the closing-hand simulation after its 50 ticks: the
final `currentZoom` is about `0.17747`, far above the claimed `1e-6`. -/
lemma c5Sim_50_bounds : (0.1774 : ℚ) < c5Sim 50 ∧ c5Sim 50 < 0.1775 := by
  norm_num [c5Sim, smoothStep, zoomOfRatio, clampZoom, c5Ratio, min_def, max_def]

/-- Counterexample to claim C5 as stated: after the 50-tick closing ramp
the final `currentZoom` is not within `1e-6` of `0` (it exceeds `0.1774`),
and the camera distance is not within `1e-6` of `maxZ = 25` (it is more
than `3` below it). -/
theorem c5_simulation_misses_tolerance :
    1 / 1000000 < |c5Sim 50 - 0| ∧ 1 / 1000000 < |cameraZ (c5Sim 50) - 25| := by
  have h := c5Sim_50_bounds
  constructor
  · rw [sub_zero, abs_of_pos (by linarith [h.1])]
    linarith [h.1]
  · have hc : cameraZ (c5Sim 50) - 25 = -(c5Sim 50 * 17) := by
      rw [cameraZ]; ring
    rw [hc, abs_neg, abs_of_pos (by nlinarith [h.1])]
    nlinarith [h.1]

/-- Claim C5 as amended: after the 50-tick closing ramp the final
`currentZoom` lies strictly between `0.1774` and `0.1775` (about `0.177`,
not within `1e-6` of `0`), and the camera distance
`maxZ - currentZoom * (maxZ - minZ)` lies strictly between `21.98` and
`21.99` (about `3.02` short of `maxZ = 25`). -/
theorem c5_simulation_final_value :
    ((0.1774 : ℚ) < c5Sim 50 ∧ c5Sim 50 < 0.1775) ∧
    21.98 < cameraZ (c5Sim 50) ∧ cameraZ (c5Sim 50) < 21.99 := by
  have h := c5Sim_50_bounds
  have hc : cameraZ (c5Sim 50) = 25 - c5Sim 50 * 17 := by
    rw [cameraZ]; ring
  exact ⟨h, by rw [hc]; nlinarith [h.2], by rw [hc]; nlinarith [h.1]⟩

/-- Claim C6: a landmark frame with no hand sets `uHover` to `0` and
`targetRotationSpeed` to the idle drift `0.002`, and leaves `targetZoom`
(and the repulsion target `uMouse`) unchanged. -/
theorem no_hand_frame_effect (planeHit : Option JSVec3) (s : GestureState) :
    (onResults none planeHit s).uHover = 0 ∧
    (onResults none planeHit s).targetRotationSpeed = 0.002 ∧
    (onResults none planeHit s).targetZoom = s.targetZoom ∧
    (onResults none planeHit s).uMouse = s.uMouse :=
  ⟨rfl, rfl, rfl, rfl⟩

/-- Claim C10: the `else` branch of `updateInteraction` that would drop
`uHover` to `0` is unreachable — the tested `target` is a freshly
constructed object and hence truthy whether or not the ray hit the plane —
so every call sets `uHover` to `1` and copies the target vector into
`uMouse`; when the ray misses the plane, `uMouse` receives the zero vector
the fresh `target` still holds. -/
theorem updateInteraction_hover_branch_unreachable
    (planeHit : Option JSVec3) (s : GestureState) :
    (updateInteraction planeHit s).uHover = 1 ∧
    (∀ p : JSVec3, (updateInteraction (some p) s).uMouse = p) ∧
    (updateInteraction none s).uMouse = ⟨0, 0, 0⟩ := by
  refine ⟨?_, fun p => rfl, rfl⟩
  cases planeHit <;> rfl

/-- Counterexample to claim C9 as stated: the `sendFrame` loop of
src/unnamed/part_000 never consults the video timestamp, so two
consecutive iterations on the same video frame (timestamp `1`, equal to
the last processed timestamp) both invoke detection — two detect calls
for one distinct timestamp. -/
theorem sendFrame_detects_duplicate_frames :
    c9InitialState.lastVideoTime = 1 ∧
    (sendFrameTick 1 2 none none c9InitialState).detectCalls = 1 ∧
    (sendFrameTick 1 2 none none
      (sendFrameTick 1 2 none none c9InitialState)).detectCalls = 2 :=
  ⟨rfl, rfl, rfl⟩

/-- Claim C9 as amended: in the `predictWebcam` loop of src/script.js an
iteration whose video timestamp equals the previously processed one makes
no detect call and changes no state, so detection runs at most once per
distinct timestamp there; the variant loop `sendFrame` of
src/unnamed/part_000 has no such guard. -/
theorem predictWebcam_skips_duplicate_timestamps (t : ℚ) (frame : Option Hand)
    (planeHit : Option JSVec3) (s : TrackerState) :
    (t = s.lastVideoTime → predictWebcamTick t frame planeHit s = s) ∧
    (∀ frame2 planeHit2,
      predictWebcamTick t frame2 planeHit2 (predictWebcamTick t frame planeHit s) =
        predictWebcamTick t frame planeHit s) := by
  constructor
  · intro h
    simp only [predictWebcamTick]
    rw [if_neg (by simp [h])]
  · intro f2 p2
    by_cases h : t = s.lastVideoTime
    · have h0 : predictWebcamTick t frame planeHit s = s := by
        simp only [predictWebcamTick]
        rw [if_neg (by simp [h])]
      rw [h0]
      simp only [predictWebcamTick]
      rw [if_neg (by simp [h])]
    · have h1 : predictWebcamTick t frame planeHit s =
          ⟨t, onResults frame planeHit s.gesture, s.detectCalls + 1⟩ := by
        simp only [predictWebcamTick]
        rw [if_pos h]
      rw [h1]
      simp only [predictWebcamTick]
      rw [if_neg (by simp)]

/-- Witness for the amended C9: at timestamp `1`, equal to the last
processed timestamp of `c9InitialState`, the prediction loop does
nothing. -/
theorem predictWebcam_skips_duplicate_timestamps_witness :
    predictWebcamTick 1 none none c9InitialState = c9InitialState :=
  (predictWebcam_skips_duplicate_timestamps 1 none none c9InitialState).1 rfl

/-- Claim C7: every sphere-population position lies exactly on the sphere
of its radius — `x^2 + y^2 + z^2 = r^2` for every index `i`, every
population size, and every radius, and in particular the generated points
with `r = planetRadius = 5` are at euclidean distance `5` from the
origin.  The position is a pure function of `i`: no randomness enters
it. -/
theorem spherePosition_on_sphere (ns i : ℕ) (r : ℝ) :
    (spherePosition ns i r).1 ^ 2 + (spherePosition ns i r).2.1 ^ 2 +
      (spherePosition ns i r).2.2 ^ 2 = r ^ 2 ∧
    Real.sqrt ((spherePosition ns i 5).1 ^ 2 + (spherePosition ns i 5).2.1 ^ 2 +
      (spherePosition ns i 5).2.2 ^ 2) = 5 := by
  have key : ∀ R : ℝ, (spherePosition ns i R).1 ^ 2 + (spherePosition ns i R).2.1 ^ 2 +
      (spherePosition ns i R).2.2 ^ 2 = R ^ 2 := by
    intro R
    have h1 := Real.sin_sq_add_cos_sq (sphereTheta ns i)
    have h2 := Real.sin_sq_add_cos_sq (spherePhi ns i)
    simp only [spherePosition]
    linear_combination (R ^ 2 * Real.sin (spherePhi ns i) ^ 2) * h1 + R ^ 2 * h2
  refine ⟨key r, ?_⟩
  rw [key 5]
  exact Real.sqrt_sq (by norm_num)

/-- Claim C8: whatever values the three uniform draws in `[0,1)` take, the
ring radius satisfies `Ri = 7 ≤ r ≤ 12 = Ro` with `r^2` the affine image
`u * (Ro^2 - Ri^2) + Ri^2 ∈ [49, 144]` of the draw (uniformity of `r^2`),
the angle lies in `[0, 2π)`, and the vertical offset lies in
`[-0.1, 0.1]`. -/
theorem ring_particle_bounds (u v w : ℚ)
    (hu0 : 0 ≤ u) (hu1 : u < 1) (hv0 : 0 ≤ v) (hv1 : v < 1)
    (hw0 : 0 ≤ w) (hw1 : w < 1) :
    (7 ≤ ringRadius u ∧ ringRadius u ≤ 12) ∧
    (ringRadius u ^ 2 = (ringRadiusSq u : ℝ) ∧
      49 ≤ ringRadiusSq u ∧ ringRadiusSq u ≤ 144) ∧
    (0 ≤ ringAngle v ∧ ringAngle v < 2 * Real.pi) ∧
    (-0.1 ≤ ringVertical w ∧ ringVertical w ≤ 0.1) := by
  have hsq : 49 ≤ ringRadiusSq u ∧ ringRadiusSq u ≤ 144 := by
    unfold ringRadiusSq ringOuterR2 ringInnerR2 ringOuterRadius ringInnerRadius
    constructor <;> nlinarith [hu0, hu1]
  have h49 : (49 : ℝ) ≤ (ringRadiusSq u : ℝ) := by exact_mod_cast hsq.1
  have h144 : (ringRadiusSq u : ℝ) ≤ 144 := by exact_mod_cast hsq.2
  have hsq0 : (0 : ℝ) ≤ (ringRadiusSq u : ℝ) := by linarith
  have hvr : (0 : ℝ) ≤ (v : ℝ) ∧ (v : ℝ) < 1 :=
    ⟨by exact_mod_cast hv0, by exact_mod_cast hv1⟩
  have hp := Real.pi_pos
  refine ⟨⟨?_, ?_⟩, ⟨Real.sq_sqrt hsq0, hsq⟩, ⟨?_, ?_⟩, ?_⟩
  · have h7 : Real.sqrt 49 = (7 : ℝ) := by
      rw [show (49 : ℝ) = 7 ^ 2 by norm_num]
      exact Real.sqrt_sq (by norm_num)
    calc (7 : ℝ) = Real.sqrt 49 := h7.symm
      _ ≤ ringRadius u := Real.sqrt_le_sqrt h49
  · have h12 : Real.sqrt 144 = (12 : ℝ) := by
      rw [show (144 : ℝ) = 12 ^ 2 by norm_num]
      exact Real.sqrt_sq (by norm_num)
    calc ringRadius u ≤ Real.sqrt 144 := Real.sqrt_le_sqrt h144
      _ = 12 := h12
  · unfold ringAngle
    nlinarith [hvr.1]
  · unfold ringAngle
    nlinarith [hvr.2]
  · unfold ringVertical
    constructor <;> nlinarith [hw0, hw1]

/-- Witness for C8 at the concrete draw `u = 0`: the ring radius is
between `7` and `12`. -/
theorem ring_particle_bounds_witness :
    7 ≤ ringRadius 0 ∧ ringRadius 0 ≤ 12 :=
  (ring_particle_bounds 0 0 0 (by norm_num) (by norm_num) (by norm_num)
    (by norm_num) (by norm_num) (by norm_num)).1

end ParticlePlanet
